import Mathlib

/-!
Verification of the response-parsing and normalization core of
`rambler_horoscopes_api_python`.

The definitions below are a shallow embedding of the repository's code:

* `src/rambler_horoscopes/types/enum.py` — the `Zodiac`, `HoroscopeType` and
  `HoroscopePeriod` string enumerations (`ZodiacEnum`, `HoroscopeType`,
  `HoroscopePeriod` here, with their slug values and declaration order);
* `src/rambler_horoscopes/types/__init__.py` — the pydantic models `Zodiac`
  and `Horoscope` (modelled by the structures `Zodiac` / `Horoscope` together
  with the validation functions `Zodiac.validate` / `Horoscope.validate`:
  a required field that was never put into the keyword dict makes pydantic
  raise a `ValidationError`, while any string — including the empty one — is
  accepted for a `str` field);
* `src/rambler_horoscopes/__init__.py` — the bodies of `get_zodiac`,
  `get_horoscope`, `get_available_types` and `get_available_periods`
  after the HTTP fetch: each Lean function takes the already-parsed JSON
  document (a typed structure mirroring the keys the code accesses) and
  returns `Except PyErr _`, where `PyErr` distinguishes the runtime errors
  the code can raise (`IndexError` from raw list indexing, pydantic's
  `ValidationError`).  `ValueError` from `Zodiac.from_name` is modelled by
  `Option` (`none` = raised) because its only use site wraps it in
  `contextlib.suppress(ValueError)`.

The HTML-stripping collaborator (`BeautifulSoup(...).text`) is kept abstract:
the normalizers are parameterized by a function `stripHtml : String → String`,
and the source's `.strip()` call is modelled by `py_strip`.
-/

/-- Runtime errors distinguishable in the embedded code: a raw `IndexError`
from indexing an empty list, and pydantic's `ValidationError`. -/
inductive PyErr
  | indexError
  | validationError
deriving DecidableEq

/-- Python's `str.lower` restricted to the character ranges occurring in this
code base: ASCII letters and the Cyrillic alphabet (`А`–`Я` → `а`–`я`,
`Ё` → `ё`).  All other characters are left unchanged, as `str.lower` does. -/
def char_lower (c : Char) : Char :=
  if 'A' ≤ c ∧ c ≤ 'Z' then Char.ofNat (c.toNat + 32)
  else if 0x410 ≤ c.toNat ∧ c.toNat ≤ 0x42F then Char.ofNat (c.toNat + 32)
  else if c.toNat = 0x401 then Char.ofNat 0x451
  else c

/-- Python's `str.lower` applied character-wise (see `char_lower`). -/
def str_lower (s : String) : String :=
  String.mk (s.data.map char_lower)

/-- The `Zodiac` enumeration of `types/enum.py` (imported as `ZodiacEnum` in
`__init__.py`).  `PIESCES` is the source's own spelling. -/
inductive ZodiacEnum
  | ARIES | TAURUS | GEMINI | CANCER | LEO | VIRGO
  | LIBRA | SCORPIO | SAGITTARIUS | CAPRICORN | AQUARIUS | PIESCES
deriving DecidableEq

/-- `Zodiac.from_name` of `types/enum.py`: match the lowercased input against
the twelve Russian display names.  The source raises `ValueError` on the
fall-through case; that is modelled by `none`. -/
def ZodiacEnum.from_name (name : String) : Option ZodiacEnum :=
  if str_lower name = "овен" then some .ARIES
  else if str_lower name = "телец" then some .TAURUS
  else if str_lower name = "близнецы" then some .GEMINI
  else if str_lower name = "рак" then some .CANCER
  else if str_lower name = "лев" then some .LEO
  else if str_lower name = "дева" then some .VIRGO
  else if str_lower name = "весы" then some .LIBRA
  else if str_lower name = "скорпион" then some ZodiacEnum.SCORPIO
  else if str_lower name = "стрелец" then some .SAGITTARIUS
  else if str_lower name = "козерог" then some .CAPRICORN
  else if str_lower name = "водолей" then some .AQUARIUS
  else if str_lower name = "рыбы" then some .PIESCES
  else none

/-- The `HoroscopeType` enumeration, in declaration order. -/
inductive HoroscopeType
  | GENERAL | LOVE | SEX | CAREER | WOMAN | MAN
deriving DecidableEq

/-- The slug (string value) of each `HoroscopeType` member. -/
def HoroscopeType.value : HoroscopeType → String
  | .GENERAL => "general"
  | .LOVE => "love"
  | .SEX => "sex"
  | .CAREER => "career"
  | .WOMAN => "woman"
  | .MAN => "man"

/-- `list(HoroscopeType)`: the members in declaration order. -/
def list_HoroscopeType : List HoroscopeType :=
  [.GENERAL, .LOVE, .SEX, .CAREER, .WOMAN, .MAN]

/-- Combined model of `horoscope_type in list(HoroscopeType)` followed by the
constructor call `HoroscopeType(horoscope_type)`: look the slug up among the
members (a `str`-enum member equals its value string in Python). -/
def HoroscopeType.fromSlug (s : String) : Option HoroscopeType :=
  list_HoroscopeType.find? (fun t => t.value == s)

/-- `list(HoroscopeType).index(e)`: position in declaration order. -/
def HoroscopeType.index : HoroscopeType → Nat
  | .GENERAL => 0
  | .LOVE => 1
  | .SEX => 2
  | .CAREER => 3
  | .WOMAN => 4
  | .MAN => 5

/-- The `HoroscopePeriod` enumeration, in declaration order: the source
declares `YESTERDAY` first, then `TODAY`, `TOMORROW`, `WEEKLY`, `MONTHLY`. -/
inductive HoroscopePeriod
  | YESTERDAY | TODAY | TOMORROW | WEEKLY | MONTHLY
deriving DecidableEq

/-- The slug (string value) of each `HoroscopePeriod` member. -/
def HoroscopePeriod.value : HoroscopePeriod → String
  | .YESTERDAY => "yesterday"
  | .TODAY => "today"
  | .TOMORROW => "tomorrow"
  | .WEEKLY => "weekly"
  | .MONTHLY => "monthly"

/-- `list(HoroscopePeriod)`: the members in declaration order. -/
def list_HoroscopePeriod : List HoroscopePeriod :=
  [.YESTERDAY, .TODAY, .TOMORROW, .WEEKLY, .MONTHLY]

/-- Combined model of `horoscope_period in list(HoroscopePeriod)` followed by
`HoroscopePeriod(horoscope_period)`. -/
def HoroscopePeriod.fromSlug (s : String) : Option HoroscopePeriod :=
  list_HoroscopePeriod.find? (fun p => p.value == s)

/-- `list(HoroscopePeriod).index(e)`: position in declaration order. -/
def HoroscopePeriod.index : HoroscopePeriod → Nat
  | .YESTERDAY => 0
  | .TODAY => 1
  | .TOMORROW => 2
  | .WEEKLY => 3
  | .MONTHLY => 4

/-- Python's `sorted(l, key=key)` for a `Nat`-valued key: a stable sort in
ascending key order, modelled by Mathlib's (stable) insertion sort. -/
def sorted_by_key {α : Type} (key : α → Nat) (l : List α) : List α :=
  List.insertionSort (fun a b => key a ≤ key b) l

theorem mem_sorted_by_key {α : Type} (key : α → Nat) (l : List α) (a : α) :
    a ∈ sorted_by_key key l ↔ a ∈ l :=
  List.mem_insertionSort _

theorem pairwise_sorted_by_key {α : Type} (key : α → Nat) (l : List α) :
    List.Pairwise (fun a b => key a ≤ key b) (sorted_by_key key l) := by
  haveI : IsTotal α (fun a b => key a ≤ key b) := ⟨fun a b => Nat.le_total (key a) (key b)⟩
  haveI : IsTrans α (fun a b => key a ≤ key b) := ⟨fun a b c h1 h2 => Nat.le_trans h1 h2⟩
  exact List.sorted_insertionSort _ l

/-- Python's whitespace test used by `str.strip()`, restricted to the
whitespace characters that can occur here. -/
def is_space (c : Char) : Bool :=
  c == ' ' || c == '\t' || c == '\n' || c == '\r'

/-- Python's `str.strip()`: drop leading and trailing whitespace. -/
def py_strip (s : String) : String :=
  String.mk (((s.data.dropWhile is_space).reverse.dropWhile is_space).reverse)

/-- Helper for `py_split_slash`: split a character list on `'/'`, keeping
empty pieces, exactly as Python's `str.split("/")` does. -/
def split_slash_go : List Char → List Char → List String
  | [], cur => [String.mk cur.reverse]
  | c :: rest, cur =>
    if c = '/' then String.mk cur.reverse :: split_slash_go rest []
    else split_slash_go rest (c :: cur)

/-- Python's `link.split("/")` (the only separator used by the code). -/
def py_split_slash (s : String) : List String :=
  split_slash_go s.data []

/-! ## Raw JSON document shapes

Typed mirrors of the keys the code accesses in the parsed upstream JSON. -/

/-- One element of `content.text`: `{"type": ..., "content": ...}`. -/
structure TextBlock where
  type : String
  content : String
deriving DecidableEq

/-- One element of `content.highlighted.list[0].items`:
`{"name": ..., "text": ...}`. -/
structure HighlightedItem where
  name : String
  text : String
deriving DecidableEq

/-- One element of `content.highlighted.list`: an object with an `items`
sequence. -/
structure HighlightedGroup where
  items : List HighlightedItem
deriving DecidableEq

/-- The `content.highlighted` object. -/
structure Highlighted where
  list : List HighlightedGroup
deriving DecidableEq

/-- The `content.summary` object of a profile document.  Each attribute is
read with `.get(...)`, so an absent or `null` key is `none`. -/
structure Summary where
  trait : Option (List String) := none
  planet : Option (List String) := none
  house : Option (List String) := none
  tarot : Option (List String) := none
  color : Option (List String) := none
  stone : Option (List String) := none
  flower : Option (List String) := none
  compatibility : Option (List String) := none
deriving DecidableEq

/-- The `content` object of a profile (description) document. -/
structure ProfileContent where
  text : List TextBlock
  highlighted : Highlighted
  summary : Summary
deriving DecidableEq

/-- A raw profile document as consumed by `get_zodiac`. -/
structure ProfileDocument where
  content : ProfileContent
deriving DecidableEq

/-- The `content` object of a reading (horoscope) document; `get_horoscope`
only accesses `content.text`. -/
structure ReadingContent where
  text : List TextBlock
deriving DecidableEq

/-- A raw reading document as consumed by `get_horoscope`. -/
structure ReadingDocument where
  content : ReadingContent
deriving DecidableEq

/-- One element of `cards[i].stories`: an object with a `link` string. -/
structure Story where
  link : String
deriving DecidableEq

/-- One element of `cards`: an object with a `stories` sequence. -/
structure Card where
  stories : List Story
deriving DecidableEq

/-- A raw listing document as consumed by `get_available_types`. -/
structure TypesDocument where
  cards : List Card
deriving DecidableEq

/-- One element of `content.bubbles.list`: an object with a `link` string. -/
structure Bubble where
  link : String
deriving DecidableEq

/-- The `content.bubbles` object. -/
structure Bubbles where
  list : List Bubble
deriving DecidableEq

/-- The `content` object of a listing document for `get_available_periods`. -/
structure BubblesContent where
  bubbles : Bubbles
deriving DecidableEq

/-- A raw listing document as consumed by `get_available_periods`. -/
structure PeriodsDocument where
  content : BubblesContent
deriving DecidableEq

/-! ## Paragraph accumulation (`get_zodiac` lines 108–113, `get_horoscope`
lines 270–275) -/

/-- The paragraph loop as the code actually executes.  The body guards the
initialisation with `if not hasattr(output_dicted, "description")`, but
`output_dicted` is a Python dict whose keys are not attributes, so `hasattr`
is always `False` and the accumulator is reset to the empty string on every
paragraph iteration; only the last leading paragraph survives.  The loop
`break`s at the first block whose `type` is not `"paragraph"`. -/
def accumulate_text_go : List TextBlock → Option String → Option String
  | [], acc => acc
  | b :: rest, acc =>
    if b.type ≠ "paragraph" then acc
    else accumulate_text_go rest (some ("" ++ b.content ++ "\n"))

/-- Result of the paragraph loop on `content.text`: `none` when the dict key
was never set (no leading paragraph block), otherwise the accumulated string. -/
def accumulate_text (blocks : List TextBlock) : Option String :=
  accumulate_text_go blocks none

/-- Follows the spec's words (its description-extraction contract), for
comparison with `accumulate_text`: initialise the accumulator once and append
the `content` of every leading paragraph block, joined by a newline, stopping
at the first non-paragraph block. -/
def accumulate_text_spec_go : List TextBlock → Option String → Option String
  | [], acc => acc
  | b :: rest, acc =>
    if b.type ≠ "paragraph" then acc
    else accumulate_text_spec_go rest (some (acc.getD "" ++ b.content ++ "\n"))

/-- Spec-side paragraph accumulation over `content.text` (see
`accumulate_text_spec_go`). -/
def accumulate_text_spec (blocks : List TextBlock) : Option String :=
  accumulate_text_spec_go blocks none

/-! ## The pydantic entities (`types/__init__.py`) -/

/-- The pydantic model `Zodiac`: `description`, `born`, `element` are
required `str` fields; the rest are optional with the defaults shown. -/
structure Zodiac where
  zodiac : ZodiacEnum
  description : String
  born : String
  element : String
  trait : Option String := none
  planet : Option String := none
  house : Option String := none
  tarot : Option String := none
  color : Option String := none
  stone : Option String := none
  flower : Option String := none
  compatibility : List ZodiacEnum := []
deriving DecidableEq

/-- The keyword dict `output_dicted` built by `get_zodiac` before the final
`Zodiac(**output_dicted)` call: each key is either present or absent. -/
structure ZodiacDict where
  zodiac : ZodiacEnum
  description : Option String := none
  born : Option String := none
  element : Option String := none
  trait : Option String := none
  planet : Option String := none
  house : Option String := none
  tarot : Option String := none
  color : Option String := none
  stone : Option String := none
  flower : Option String := none
  compatibility : Option (List ZodiacEnum) := none
deriving DecidableEq

/-- `Zodiac(**output_dicted)`: pydantic raises `ValidationError` when a
required field (`description`, `born`, `element`) is absent from the keyword
dict; any string value — including the empty string — is accepted.  Optional
fields default to `None` (resp. `[]` for `compatibility`). -/
def Zodiac.validate (d : ZodiacDict) : Except PyErr Zodiac :=
  match d.description, d.born, d.element with
  | some description, some born, some element =>
    .ok { zodiac := d.zodiac, description := description, born := born,
          element := element, trait := d.trait, planet := d.planet,
          house := d.house, tarot := d.tarot, color := d.color,
          stone := d.stone, flower := d.flower,
          compatibility := d.compatibility.getD [] }
  | _, _, _ => .error .validationError

/-- The pydantic model `Horoscope`: all four fields are required. -/
structure Horoscope where
  zodiac : ZodiacEnum
  type : HoroscopeType
  period : HoroscopePeriod
  text : String
deriving DecidableEq

/-- The keyword dict built by `get_horoscope` before `Horoscope(**...)`. -/
structure HoroscopeDict where
  zodiac : ZodiacEnum
  type : HoroscopeType
  period : HoroscopePeriod
  text : Option String := none
deriving DecidableEq

/-- `Horoscope(**output_dicted)`: pydantic raises `ValidationError` when the
required `text` field is absent; any string is accepted. -/
def Horoscope.validate (d : HoroscopeDict) : Except PyErr Horoscope :=
  match d.text with
  | some text =>
    .ok { zodiac := d.zodiac, type := d.type, period := d.period, text := text }
  | none => .error .validationError

/-! ## `get_zodiac` (lines 87–174 of `__init__.py`) -/

/-- Lines 106–117: the dict starts as `{"zodiac": zodiac}`; the paragraph
loop may set `description` (see `accumulate_text`); if it was set, it is
re-assigned to `BeautifulSoup(description, "html.parser").text.strip()`,
modelled by `stripHtml` followed by `py_strip`. -/
def base_dict (stripHtml : String → String) (zodiac : ZodiacEnum)
    (blocks : List TextBlock) : ZodiacDict :=
  { zodiac := zodiac,
    description :=
      match accumulate_text blocks with
      | some s => some (py_strip (stripHtml s))
      | none => none }

/-- Lines 120–133: one iteration of the highlighted-items loop.  The `match`
statement copies `text`, lowercased, into `born` for the label `"Родились"`
and into `element` for `"Стихия"`; any other label falls through. -/
def items_step (it : HighlightedItem) (d : ZodiacDict) : ZodiacDict :=
  if it.name = "Родились" then { d with born := some (str_lower it.text) }
  else if it.name = "Стихия" then { d with element := some (str_lower it.text) }
  else d

/-- Lines 120–133: the loop over `content.highlighted.list[0].items`. -/
def process_items : List HighlightedItem → ZodiacDict → ZodiacDict
  | [], d => d
  | it :: rest, d => process_items rest (items_step it d)

/-- Shape of every lowercased summary attribute: `", ".join(v).lower()` when
the attribute is present, otherwise the previous dict value. -/
def opt_joined_lower (v : Option (List String)) (dflt : Option String) : Option String :=
  match v with
  | some l => some (str_lower (String.intercalate ", " l))
  | none => dflt

/-- Shape of the `flower` attribute: `", ".join(v)` without lowercasing. -/
def opt_joined (v : Option (List String)) (dflt : Option String) : Option String :=
  match v with
  | some l => some (String.intercalate ", " l)
  | none => dflt

/-- Lines 164–172 inner computation: `list(map(lambda e: ZodiacEnum.from_name(e),
names))`.  The list is materialised eagerly, so the first unresolvable display
name raises `ValueError` (modelled by `none`) before any assignment happens. -/
def map_from_name : List String → Option (List ZodiacEnum)
  | [] => some []
  | n :: rest =>
    match ZodiacEnum.from_name n with
    | none => none
    | some z =>
      match map_from_name rest with
      | none => none
      | some zs => some (z :: zs)

/-- Lines 163–172: the `compatibility` assignment under
`with suppress(ValueError)`: when the attribute is present and every display
name resolves, the mapped list is stored; when any element fails, the
`ValueError` is suppressed and the dict keeps its previous value. -/
def opt_compat (v : Option (List String)) (dflt : Option (List ZodiacEnum)) :
    Option (List ZodiacEnum) :=
  match v with
  | some names =>
    match map_from_name names with
    | some sgns => some sgns
    | none => dflt
  | none => dflt

/-- Lines 135–138: `trait`. -/
def step_trait (s : Summary) (d : ZodiacDict) : ZodiacDict :=
  match s.trait with
  | some v => { d with trait := some (str_lower (String.intercalate ", " v)) }
  | none => d

/-- Lines 139–142: `planet`. -/
def step_planet (s : Summary) (d : ZodiacDict) : ZodiacDict :=
  match s.planet with
  | some v => { d with planet := some (str_lower (String.intercalate ", " v)) }
  | none => d

/-- Lines 143–146: `house`. -/
def step_house (s : Summary) (d : ZodiacDict) : ZodiacDict :=
  match s.house with
  | some v => { d with house := some (str_lower (String.intercalate ", " v)) }
  | none => d

/-- Lines 147–150: `tarot`. -/
def step_tarot (s : Summary) (d : ZodiacDict) : ZodiacDict :=
  match s.tarot with
  | some v => { d with tarot := some (str_lower (String.intercalate ", " v)) }
  | none => d

/-- Lines 151–154: `color`. -/
def step_color (s : Summary) (d : ZodiacDict) : ZodiacDict :=
  match s.color with
  | some v => { d with color := some (str_lower (String.intercalate ", " v)) }
  | none => d

/-- Lines 155–158: `stone`. -/
def step_stone (s : Summary) (d : ZodiacDict) : ZodiacDict :=
  match s.stone with
  | some v => { d with stone := some (str_lower (String.intercalate ", " v)) }
  | none => d

/-- Lines 159–162: `flower` — joined but, unlike the other attributes, not
lowercased. -/
def step_flower (s : Summary) (d : ZodiacDict) : ZodiacDict :=
  match s.flower with
  | some v => { d with flower := some (String.intercalate ", " v) }
  | none => d

/-- Lines 163–172: `compatibility` (see `opt_compat`). -/
def step_compat (s : Summary) (d : ZodiacDict) : ZodiacDict :=
  match s.compatibility with
  | some names =>
    match map_from_name names with
    | some sgns => { d with compatibility := some sgns }
    | none => d
  | none => d

/-- Lines 135–172: the summary attributes, processed in source order. -/
def process_summary (s : Summary) (d : ZodiacDict) : ZodiacDict :=
  step_compat s (step_flower s (step_stone s (step_color s
    (step_tarot s (step_house s (step_planet s (step_trait s d)))))))

/-- The keyword dict `get_zodiac` hands to `Zodiac(**output_dicted)`, given
the (successfully indexed) first highlighted group `g`.  Line 119 guards the
whole items/summary block with `len(g.items) >= 1`. -/
def build_zodiac_dict (stripHtml : String → String) (zodiac : ZodiacEnum)
    (data : ProfileDocument) (g : HighlightedGroup) : ZodiacDict :=
  let d := base_dict stripHtml zodiac data.content.text
  if g.items.length ≥ 1 then
    process_summary data.content.summary (process_items g.items d)
  else d

/-- `get_zodiac` after the fetch (lines 106–174): line 119 evaluates
`data["content"]["highlighted"]["list"][0]` before anything else in the
guarded block, so an empty `list` raises a raw `IndexError`; otherwise the
keyword dict is built and handed to `Zodiac(**output_dicted)`. -/
def get_zodiac (stripHtml : String → String) (zodiac : ZodiacEnum)
    (data : ProfileDocument) : Except PyErr Zodiac :=
  match data.content.highlighted.list with
  | [] => .error .indexError
  | g :: _ => Zodiac.validate (build_zodiac_dict stripHtml zodiac data g)

/-! ## `get_horoscope` (lines 240–280) -/

/-- The keyword dict `get_horoscope` builds (lines 268–279): it starts with
the echoed `zodiac`, `type` and `period`; `text` is produced by the same
paragraph loop as in `get_zodiac` and, if set, stripped and trimmed. -/
def horoscope_dict (stripHtml : String → String) (zodiac : ZodiacEnum)
    (horoscope_type : HoroscopeType) (period : HoroscopePeriod)
    (blocks : List TextBlock) : HoroscopeDict :=
  { zodiac := zodiac, type := horoscope_type, period := period,
    text :=
      match accumulate_text blocks with
      | some s => some (py_strip (stripHtml s))
      | none => none }

/-- `get_horoscope` after the fetch (lines 268–280). -/
def get_horoscope (stripHtml : String → String) (zodiac : ZodiacEnum)
    (horoscope_type : HoroscopeType) (period : HoroscopePeriod)
    (data : ReadingDocument) : Except PyErr Horoscope :=
  Horoscope.validate
    (horoscope_dict stripHtml zodiac horoscope_type period data.content.text)

/-! ## `get_available_types` (lines 176–205) -/

/-- Lines 198–204: processing of one story's path segment
`story["link"].split("/")[2]`: a literal slug match appends the member;
segment `"erotic"` additionally appends `LOVE`; segment `"sex-horoscope"`
additionally appends `SEX`. -/
def types_step (seg : String) (out : List HoroscopeType) : List HoroscopeType :=
  let out :=
    match HoroscopeType.fromSlug seg with
    | some t => out ++ [t]
    | none => out
  let out := if seg = "erotic" then out ++ [HoroscopeType.LOVE] else out
  let out := if seg = "sex-horoscope" then out ++ [HoroscopeType.SEX] else out
  out

/-- Lines 196–204: the nested `for card / for story` loops, flattened to the
story list in traversal order.  `split("/")[2]` raises `IndexError` when the
link has fewer than three segments. -/
def types_loop : List Story → List HoroscopeType → Except PyErr (List HoroscopeType)
  | [], out => .ok out
  | s :: rest, out =>
    match (py_split_slash s.link).get? 2 with
    | none => .error .indexError
    | some seg => types_loop rest (types_step seg out)

/-- `get_available_types` after the fetch (lines 195–205): the output starts
as `[GENERAL]`, the stories are scanned, and the result is sorted (stably) by
position in `list(HoroscopeType)`. -/
def get_available_types (data : TypesDocument) : Except PyErr (List HoroscopeType) :=
  match types_loop (data.cards.flatMap fun c => c.stories) [HoroscopeType.GENERAL] with
  | .error e => .error e
  | .ok out => .ok (sorted_by_key HoroscopeType.index out)

/-! ## `get_available_periods` (lines 207–238) -/

/-- Lines 236–237: a segment matching a known period slug is appended. -/
def periods_step (seg : String) (out : List HoroscopePeriod) : List HoroscopePeriod :=
  match HoroscopePeriod.fromSlug seg with
  | some p => out ++ [p]
  | none => out

/-- Lines 232–237: the bubble loop.  The inspected segment is
`bubble["link"].split("/")[3 if horoscope_type != GENERAL else 2]`;
a too-short link raises `IndexError`. -/
def periods_loop (horoscope_type : HoroscopeType) :
    List Bubble → List HoroscopePeriod → Except PyErr (List HoroscopePeriod)
  | [], out => .ok out
  | b :: rest, out =>
    match (py_split_slash b.link).get?
        (if horoscope_type ≠ HoroscopeType.GENERAL then 3 else 2) with
    | none => .error .indexError
    | some seg => periods_loop horoscope_type rest (periods_step seg out)

/-- `get_available_periods` after the fetch (lines 231–238): the output
starts as `[TODAY]`, the bubbles are scanned, and the result is sorted
(stably) by position in `list(HoroscopePeriod)`. -/
def get_available_periods (horoscope_type : HoroscopeType)
    (data : PeriodsDocument) : Except PyErr (List HoroscopePeriod) :=
  match periods_loop horoscope_type data.content.bubbles.list [HoroscopePeriod.TODAY] with
  | .error e => .error e
  | .ok out => .ok (sorted_by_key HoroscopePeriod.index out)

/-! ## Helper lemmas about the embedding -/

theorem validate_error_iff (d : ZodiacDict) :
    Zodiac.validate d = .error .validationError ↔
      (d.description = none ∨ d.born = none ∨ d.element = none) := by
  unfold Zodiac.validate
  cases hd : d.description <;> cases hb : d.born <;> cases he : d.element <;> simp

theorem validate_ok_elim (d : ZodiacDict) (r : Zodiac) (h : Zodiac.validate d = .ok r) :
    r.trait = d.trait ∧ r.planet = d.planet ∧ r.house = d.house ∧ r.tarot = d.tarot ∧
    r.color = d.color ∧ r.stone = d.stone ∧ r.flower = d.flower ∧
    r.compatibility = d.compatibility.getD [] := by
  unfold Zodiac.validate at h
  cases hd : d.description <;> rw [hd] at h <;>
    cases hb : d.born <;> rw [hb] at h <;>
    cases he : d.element <;> rw [he] at h
  all_goals try exact Except.noConfusion h
  injection h with h'
  subst h'
  exact ⟨rfl, rfl, rfl, rfl, rfl, rfl, rfl, rfl⟩

theorem items_step_fields (it : HighlightedItem) (d : ZodiacDict) :
    (items_step it d).description = d.description ∧
    (items_step it d).trait = d.trait ∧
    (items_step it d).planet = d.planet ∧
    (items_step it d).house = d.house ∧
    (items_step it d).tarot = d.tarot ∧
    (items_step it d).color = d.color ∧
    (items_step it d).stone = d.stone ∧
    (items_step it d).flower = d.flower ∧
    (items_step it d).compatibility = d.compatibility := by
  unfold items_step
  split
  · exact ⟨rfl, rfl, rfl, rfl, rfl, rfl, rfl, rfl, rfl⟩
  · split
    · exact ⟨rfl, rfl, rfl, rfl, rfl, rfl, rfl, rfl, rfl⟩
    · exact ⟨rfl, rfl, rfl, rfl, rfl, rfl, rfl, rfl, rfl⟩

theorem process_items_fields (items : List HighlightedItem) (d : ZodiacDict) :
    (process_items items d).description = d.description ∧
    (process_items items d).trait = d.trait ∧
    (process_items items d).planet = d.planet ∧
    (process_items items d).house = d.house ∧
    (process_items items d).tarot = d.tarot ∧
    (process_items items d).color = d.color ∧
    (process_items items d).stone = d.stone ∧
    (process_items items d).flower = d.flower ∧
    (process_items items d).compatibility = d.compatibility := by
  induction items generalizing d with
  | nil => exact ⟨rfl, rfl, rfl, rfl, rfl, rfl, rfl, rfl, rfl⟩
  | cons it rest ih =>
    obtain ⟨a1, a2, a3, a4, a5, a6, a7, a8, a9⟩ := items_step_fields it d
    obtain ⟨b1, b2, b3, b4, b5, b6, b7, b8, b9⟩ := ih (items_step it d)
    exact ⟨b1.trans a1, b2.trans a2, b3.trans a3, b4.trans a4, b5.trans a5,
           b6.trans a6, b7.trans a7, b8.trans a8, b9.trans a9⟩


theorem step_trait_fields (s : Summary) (d : ZodiacDict) :
    (step_trait s d).description = d.description ∧
    (step_trait s d).trait = opt_joined_lower s.trait d.trait ∧
    (step_trait s d).planet = d.planet ∧
    (step_trait s d).house = d.house ∧
    (step_trait s d).tarot = d.tarot ∧
    (step_trait s d).color = d.color ∧
    (step_trait s d).stone = d.stone ∧
    (step_trait s d).flower = d.flower ∧
    (step_trait s d).compatibility = d.compatibility := by
  unfold step_trait opt_joined_lower
  split <;> exact ⟨rfl, rfl, rfl, rfl, rfl, rfl, rfl, rfl, rfl⟩

theorem step_planet_fields (s : Summary) (d : ZodiacDict) :
    (step_planet s d).description = d.description ∧
    (step_planet s d).trait = d.trait ∧
    (step_planet s d).planet = opt_joined_lower s.planet d.planet ∧
    (step_planet s d).house = d.house ∧
    (step_planet s d).tarot = d.tarot ∧
    (step_planet s d).color = d.color ∧
    (step_planet s d).stone = d.stone ∧
    (step_planet s d).flower = d.flower ∧
    (step_planet s d).compatibility = d.compatibility := by
  unfold step_planet opt_joined_lower
  split <;> exact ⟨rfl, rfl, rfl, rfl, rfl, rfl, rfl, rfl, rfl⟩

theorem step_house_fields (s : Summary) (d : ZodiacDict) :
    (step_house s d).description = d.description ∧
    (step_house s d).trait = d.trait ∧
    (step_house s d).planet = d.planet ∧
    (step_house s d).house = opt_joined_lower s.house d.house ∧
    (step_house s d).tarot = d.tarot ∧
    (step_house s d).color = d.color ∧
    (step_house s d).stone = d.stone ∧
    (step_house s d).flower = d.flower ∧
    (step_house s d).compatibility = d.compatibility := by
  unfold step_house opt_joined_lower
  split <;> exact ⟨rfl, rfl, rfl, rfl, rfl, rfl, rfl, rfl, rfl⟩

theorem step_tarot_fields (s : Summary) (d : ZodiacDict) :
    (step_tarot s d).description = d.description ∧
    (step_tarot s d).trait = d.trait ∧
    (step_tarot s d).planet = d.planet ∧
    (step_tarot s d).house = d.house ∧
    (step_tarot s d).tarot = opt_joined_lower s.tarot d.tarot ∧
    (step_tarot s d).color = d.color ∧
    (step_tarot s d).stone = d.stone ∧
    (step_tarot s d).flower = d.flower ∧
    (step_tarot s d).compatibility = d.compatibility := by
  unfold step_tarot opt_joined_lower
  split <;> exact ⟨rfl, rfl, rfl, rfl, rfl, rfl, rfl, rfl, rfl⟩

theorem step_color_fields (s : Summary) (d : ZodiacDict) :
    (step_color s d).description = d.description ∧
    (step_color s d).trait = d.trait ∧
    (step_color s d).planet = d.planet ∧
    (step_color s d).house = d.house ∧
    (step_color s d).tarot = d.tarot ∧
    (step_color s d).color = opt_joined_lower s.color d.color ∧
    (step_color s d).stone = d.stone ∧
    (step_color s d).flower = d.flower ∧
    (step_color s d).compatibility = d.compatibility := by
  unfold step_color opt_joined_lower
  split <;> exact ⟨rfl, rfl, rfl, rfl, rfl, rfl, rfl, rfl, rfl⟩

theorem step_stone_fields (s : Summary) (d : ZodiacDict) :
    (step_stone s d).description = d.description ∧
    (step_stone s d).trait = d.trait ∧
    (step_stone s d).planet = d.planet ∧
    (step_stone s d).house = d.house ∧
    (step_stone s d).tarot = d.tarot ∧
    (step_stone s d).color = d.color ∧
    (step_stone s d).stone = opt_joined_lower s.stone d.stone ∧
    (step_stone s d).flower = d.flower ∧
    (step_stone s d).compatibility = d.compatibility := by
  unfold step_stone opt_joined_lower
  split <;> exact ⟨rfl, rfl, rfl, rfl, rfl, rfl, rfl, rfl, rfl⟩

theorem step_flower_fields (s : Summary) (d : ZodiacDict) :
    (step_flower s d).description = d.description ∧
    (step_flower s d).trait = d.trait ∧
    (step_flower s d).planet = d.planet ∧
    (step_flower s d).house = d.house ∧
    (step_flower s d).tarot = d.tarot ∧
    (step_flower s d).color = d.color ∧
    (step_flower s d).stone = d.stone ∧
    (step_flower s d).flower = opt_joined s.flower d.flower ∧
    (step_flower s d).compatibility = d.compatibility := by
  unfold step_flower opt_joined
  split <;> exact ⟨rfl, rfl, rfl, rfl, rfl, rfl, rfl, rfl, rfl⟩

theorem step_compat_fields (s : Summary) (d : ZodiacDict) :
    (step_compat s d).description = d.description ∧
    (step_compat s d).trait = d.trait ∧
    (step_compat s d).planet = d.planet ∧
    (step_compat s d).house = d.house ∧
    (step_compat s d).tarot = d.tarot ∧
    (step_compat s d).color = d.color ∧
    (step_compat s d).stone = d.stone ∧
    (step_compat s d).flower = d.flower ∧
    (step_compat s d).compatibility = opt_compat s.compatibility d.compatibility := by
  unfold step_compat opt_compat
  split
  · split
    · exact ⟨rfl, rfl, rfl, rfl, rfl, rfl, rfl, rfl, rfl⟩
    · exact ⟨rfl, rfl, rfl, rfl, rfl, rfl, rfl, rfl, rfl⟩
  · exact ⟨rfl, rfl, rfl, rfl, rfl, rfl, rfl, rfl, rfl⟩

theorem process_summary_description (s : Summary) (d : ZodiacDict) :
    (process_summary s d).description = d.description := by
  unfold process_summary
  rw [(step_compat_fields s _).1,
      (step_flower_fields s _).1,
      (step_stone_fields s _).1,
      (step_color_fields s _).1,
      (step_tarot_fields s _).1,
      (step_house_fields s _).1,
      (step_planet_fields s _).1,
      (step_trait_fields s _).1]

theorem process_summary_trait (s : Summary) (d : ZodiacDict) :
    (process_summary s d).trait = opt_joined_lower s.trait d.trait := by
  unfold process_summary
  rw [(step_compat_fields s _).2.1,
      (step_flower_fields s _).2.1,
      (step_stone_fields s _).2.1,
      (step_color_fields s _).2.1,
      (step_tarot_fields s _).2.1,
      (step_house_fields s _).2.1,
      (step_planet_fields s _).2.1,
      (step_trait_fields s _).2.1]

theorem process_summary_planet (s : Summary) (d : ZodiacDict) :
    (process_summary s d).planet = opt_joined_lower s.planet d.planet := by
  unfold process_summary
  rw [(step_compat_fields s _).2.2.1,
      (step_flower_fields s _).2.2.1,
      (step_stone_fields s _).2.2.1,
      (step_color_fields s _).2.2.1,
      (step_tarot_fields s _).2.2.1,
      (step_house_fields s _).2.2.1,
      (step_planet_fields s _).2.2.1,
      (step_trait_fields s _).2.2.1]

theorem process_summary_house (s : Summary) (d : ZodiacDict) :
    (process_summary s d).house = opt_joined_lower s.house d.house := by
  unfold process_summary
  rw [(step_compat_fields s _).2.2.2.1,
      (step_flower_fields s _).2.2.2.1,
      (step_stone_fields s _).2.2.2.1,
      (step_color_fields s _).2.2.2.1,
      (step_tarot_fields s _).2.2.2.1,
      (step_house_fields s _).2.2.2.1,
      (step_planet_fields s _).2.2.2.1,
      (step_trait_fields s _).2.2.2.1]

theorem process_summary_tarot (s : Summary) (d : ZodiacDict) :
    (process_summary s d).tarot = opt_joined_lower s.tarot d.tarot := by
  unfold process_summary
  rw [(step_compat_fields s _).2.2.2.2.1,
      (step_flower_fields s _).2.2.2.2.1,
      (step_stone_fields s _).2.2.2.2.1,
      (step_color_fields s _).2.2.2.2.1,
      (step_tarot_fields s _).2.2.2.2.1,
      (step_house_fields s _).2.2.2.2.1,
      (step_planet_fields s _).2.2.2.2.1,
      (step_trait_fields s _).2.2.2.2.1]

theorem process_summary_color (s : Summary) (d : ZodiacDict) :
    (process_summary s d).color = opt_joined_lower s.color d.color := by
  unfold process_summary
  rw [(step_compat_fields s _).2.2.2.2.2.1,
      (step_flower_fields s _).2.2.2.2.2.1,
      (step_stone_fields s _).2.2.2.2.2.1,
      (step_color_fields s _).2.2.2.2.2.1,
      (step_tarot_fields s _).2.2.2.2.2.1,
      (step_house_fields s _).2.2.2.2.2.1,
      (step_planet_fields s _).2.2.2.2.2.1,
      (step_trait_fields s _).2.2.2.2.2.1]

theorem process_summary_stone (s : Summary) (d : ZodiacDict) :
    (process_summary s d).stone = opt_joined_lower s.stone d.stone := by
  unfold process_summary
  rw [(step_compat_fields s _).2.2.2.2.2.2.1,
      (step_flower_fields s _).2.2.2.2.2.2.1,
      (step_stone_fields s _).2.2.2.2.2.2.1,
      (step_color_fields s _).2.2.2.2.2.2.1,
      (step_tarot_fields s _).2.2.2.2.2.2.1,
      (step_house_fields s _).2.2.2.2.2.2.1,
      (step_planet_fields s _).2.2.2.2.2.2.1,
      (step_trait_fields s _).2.2.2.2.2.2.1]

theorem process_summary_flower (s : Summary) (d : ZodiacDict) :
    (process_summary s d).flower = opt_joined s.flower d.flower := by
  unfold process_summary
  rw [(step_compat_fields s _).2.2.2.2.2.2.2.1,
      (step_flower_fields s _).2.2.2.2.2.2.2.1,
      (step_stone_fields s _).2.2.2.2.2.2.2.1,
      (step_color_fields s _).2.2.2.2.2.2.2.1,
      (step_tarot_fields s _).2.2.2.2.2.2.2.1,
      (step_house_fields s _).2.2.2.2.2.2.2.1,
      (step_planet_fields s _).2.2.2.2.2.2.2.1,
      (step_trait_fields s _).2.2.2.2.2.2.2.1]

theorem process_summary_compatibility (s : Summary) (d : ZodiacDict) :
    (process_summary s d).compatibility = opt_compat s.compatibility d.compatibility := by
  unfold process_summary
  rw [(step_compat_fields s _).2.2.2.2.2.2.2.2,
      (step_flower_fields s _).2.2.2.2.2.2.2.2,
      (step_stone_fields s _).2.2.2.2.2.2.2.2,
      (step_color_fields s _).2.2.2.2.2.2.2.2,
      (step_tarot_fields s _).2.2.2.2.2.2.2.2,
      (step_house_fields s _).2.2.2.2.2.2.2.2,
      (step_planet_fields s _).2.2.2.2.2.2.2.2,
      (step_trait_fields s _).2.2.2.2.2.2.2.2]

theorem base_dict_fields (stripHtml : String → String) (zodiac : ZodiacEnum)
    (blocks : List TextBlock) :
    (base_dict stripHtml zodiac blocks).born = none ∧
    (base_dict stripHtml zodiac blocks).element = none ∧
    (base_dict stripHtml zodiac blocks).trait = none ∧
    (base_dict stripHtml zodiac blocks).planet = none ∧
    (base_dict stripHtml zodiac blocks).house = none ∧
    (base_dict stripHtml zodiac blocks).tarot = none ∧
    (base_dict stripHtml zodiac blocks).color = none ∧
    (base_dict stripHtml zodiac blocks).stone = none ∧
    (base_dict stripHtml zodiac blocks).flower = none ∧
    (base_dict stripHtml zodiac blocks).compatibility = none :=
  ⟨rfl, rfl, rfl, rfl, rfl, rfl, rfl, rfl, rfl, rfl⟩

theorem base_dict_description (stripHtml : String → String) (zodiac : ZodiacEnum)
    (blocks : List TextBlock) :
    (base_dict stripHtml zodiac blocks).description =
      match accumulate_text blocks with
      | some s => some (py_strip (stripHtml s))
      | none => none := rfl

theorem build_description (stripHtml : String → String) (zodiac : ZodiacEnum)
    (data : ProfileDocument) (g : HighlightedGroup) :
    (build_zodiac_dict stripHtml zodiac data g).description =
      (base_dict stripHtml zodiac data.content.text).description := by
  simp only [build_zodiac_dict]
  by_cases hi : g.items.length ≥ 1
  · rw [if_pos hi, process_summary_description]
    exact (process_items_fields g.items _).1
  · rw [if_neg hi]

theorem build_compatibility (stripHtml : String → String) (zodiac : ZodiacEnum)
    (data : ProfileDocument) (g : HighlightedGroup) :
    (build_zodiac_dict stripHtml zodiac data g).compatibility =
      if g.items.length ≥ 1 then opt_compat data.content.summary.compatibility none
      else none := by
  simp only [build_zodiac_dict]
  by_cases hi : g.items.length ≥ 1
  · rw [if_pos hi, if_pos hi, process_summary_compatibility,
        (process_items_fields g.items _).2.2.2.2.2.2.2.2,
        (base_dict_fields stripHtml zodiac data.content.text).2.2.2.2.2.2.2.2.2]
  · rw [if_neg hi, if_neg hi,
        (base_dict_fields stripHtml zodiac data.content.text).2.2.2.2.2.2.2.2.2]

theorem map_from_name_none (names : List String)
    (h : ∃ n ∈ names, ZodiacEnum.from_name n = none) :
    map_from_name names = none := by
  induction names with
  | nil =>
    obtain ⟨n, hn, _⟩ := h
    exact absurd hn (List.not_mem_nil n)
  | cons a rest ih =>
    obtain ⟨n, hn, hnone⟩ := h
    unfold map_from_name
    rcases List.mem_cons.mp hn with heq | hmem
    · rw [heq] at hnone
      rw [hnone]
    · cases hfa : ZodiacEnum.from_name a
      · rfl
      · rw [ih ⟨n, hmem, hnone⟩]

theorem types_loop_cons (s : Story) (rest : List Story) (out : List HoroscopeType) :
    types_loop (s :: rest) out =
      match (py_split_slash s.link).get? 2 with
      | none => .error .indexError
      | some seg => types_loop rest (types_step seg out) := rfl

theorem types_step_append (seg : String) (out : List HoroscopeType) :
    types_step seg out = out ++ types_step seg [] := by
  simp only [types_step]
  cases HoroscopeType.fromSlug seg <;>
    by_cases h1 : seg = "erotic" <;>
    by_cases h2 : seg = "sex-horoscope" <;>
    simp [h1, h2]

theorem types_loop_mem (stories : List Story) :
    ∀ (out res : List HoroscopeType), types_loop stories out = .ok res →
      ∀ a ∈ out, a ∈ res := by
  induction stories with
  | nil =>
    intro out res h a ha
    unfold types_loop at h
    injection h with h'
    subst h'
    exact ha
  | cons s rest ih =>
    intro out res h a ha
    rw [types_loop_cons] at h
    cases hseg : (py_split_slash s.link).get? 2 <;> rw [hseg] at h
    · exact Except.noConfusion h
    · refine ih _ _ h a ?_
      rw [types_step_append]
      exact List.mem_append_left _ ha

theorem get_available_types_ok_elim (data : TypesDocument)
    (out : List HoroscopeType) (h : get_available_types data = .ok out) :
    ∃ res, types_loop (data.cards.flatMap fun c => c.stories) [HoroscopeType.GENERAL] = .ok res ∧
      out = sorted_by_key HoroscopeType.index res := by
  unfold get_available_types at h
  cases hres : types_loop (data.cards.flatMap fun c => c.stories) [HoroscopeType.GENERAL] <;>
    rw [hres] at h
  · exact Except.noConfusion h
  · injection h with h'
    exact ⟨_, rfl, h'.symm⟩

theorem periods_loop_cons (t : HoroscopeType) (b : Bubble) (rest : List Bubble)
    (out : List HoroscopePeriod) :
    periods_loop t (b :: rest) out =
      match (py_split_slash b.link).get? (if t ≠ HoroscopeType.GENERAL then 3 else 2) with
      | none => .error .indexError
      | some seg => periods_loop t rest (periods_step seg out) := rfl

theorem periods_step_mem (seg : String) (out : List HoroscopePeriod)
    (a : HoroscopePeriod) (ha : a ∈ out) : a ∈ periods_step seg out := by
  unfold periods_step
  cases HoroscopePeriod.fromSlug seg
  · exact ha
  · exact List.mem_append_left _ ha

theorem periods_loop_mem (t : HoroscopeType) (bubbles : List Bubble) :
    ∀ (out res : List HoroscopePeriod), periods_loop t bubbles out = .ok res →
      ∀ a ∈ out, a ∈ res := by
  induction bubbles with
  | nil =>
    intro out res h a ha
    unfold periods_loop at h
    injection h with h'
    subst h'
    exact ha
  | cons b rest ih =>
    intro out res h a ha
    rw [periods_loop_cons] at h
    cases hseg : (py_split_slash b.link).get? (if t ≠ HoroscopeType.GENERAL then 3 else 2) <;>
      rw [hseg] at h
    · exact Except.noConfusion h
    · exact ih _ _ h a (periods_step_mem _ _ a ha)

theorem get_available_periods_ok_elim (t : HoroscopeType) (data : PeriodsDocument)
    (out : List HoroscopePeriod) (h : get_available_periods t data = .ok out) :
    ∃ res, periods_loop t data.content.bubbles.list [HoroscopePeriod.TODAY] = .ok res ∧
      out = sorted_by_key HoroscopePeriod.index res := by
  unfold get_available_periods at h
  cases hres : periods_loop t data.content.bubbles.list [HoroscopePeriod.TODAY] <;>
    rw [hres] at h
  · exact Except.noConfusion h
  · injection h with h'
    exact ⟨_, rfl, h'.symm⟩

/-! ## Claim theorems -/

/-- C1: on the spec's four text blocks (paragraph "A", paragraph "B",
quote "C", paragraph "D") the paragraph loop as coded (`accumulate_text`)
accumulates only "B\n": the `hasattr(output_dicted, "description")` guard
never fires on a dict, so the accumulator is reset on every paragraph and
only the last leading paragraph survives.  The accumulation described by the
spec (`accumulate_text_spec`) yields "A\nB\n".  Both scans stop at the quote
block, so "D" is never reached. -/
theorem c1_accumulate_divergence :
    accumulate_text
      [⟨"paragraph", "A"⟩, ⟨"paragraph", "B"⟩, ⟨"quote", "C"⟩, ⟨"paragraph", "D"⟩]
      = some "B\n" ∧
    accumulate_text_spec
      [⟨"paragraph", "A"⟩, ⟨"paragraph", "B"⟩, ⟨"quote", "C"⟩, ⟨"paragraph", "D"⟩]
      = some "A\nB\n" :=
  ⟨rfl, rfl⟩

/-- C2 counterexample: a reading document whose `content.text` has no
paragraph block.  The `text` key of the keyword dict is never set, so the
`Horoscope(**output_dicted)` call fails with a `ValidationError` instead of
returning an entity — construction does not succeed for every raw reading
document. -/
theorem c2_counterexample :
    get_horoscope id ZodiacEnum.ARIES HoroscopeType.GENERAL HoroscopePeriod.TODAY
      { content := { text := [] } } = .error .validationError := rfl

/-- C2 amended: whenever the paragraph loop sets `text` (there is at least
one leading paragraph block), `get_horoscope` succeeds and the entity echoes
the requested sign, type and period; when no leading paragraph block exists
it fails with a `ValidationError`. -/
theorem c2_amended (stripHtml : String → String) (zodiac : ZodiacEnum)
    (horoscope_type : HoroscopeType) (period : HoroscopePeriod)
    (data : ReadingDocument) :
    (∀ s, accumulate_text data.content.text = some s →
      get_horoscope stripHtml zodiac horoscope_type period data =
        .ok { zodiac := zodiac, type := horoscope_type, period := period,
              text := py_strip (stripHtml s) }) ∧
    (accumulate_text data.content.text = none →
      get_horoscope stripHtml zodiac horoscope_type period data =
        .error .validationError) := by
  constructor
  · intro s hs
    unfold get_horoscope horoscope_dict Horoscope.validate
    rw [hs]
  · intro hn
    unfold get_horoscope horoscope_dict Horoscope.validate
    rw [hn]

/-- C2 witness: the amended theorem at a concrete one-paragraph document. -/
theorem c2_witness :
    get_horoscope id ZodiacEnum.ARIES HoroscopeType.GENERAL HoroscopePeriod.TODAY
      { content := { text := [{ type := "paragraph", content := "hi" }] } } =
      .ok { zodiac := ZodiacEnum.ARIES, type := HoroscopeType.GENERAL,
            period := HoroscopePeriod.TODAY, text := "hi" } :=
  (c2_amended id ZodiacEnum.ARIES HoroscopeType.GENERAL HoroscopePeriod.TODAY
    { content := { text := [{ type := "paragraph", content := "hi" }] } }).1 "hi\n" rfl

/-- C10: `get_zodiac` evaluates `content.highlighted.list[0]` before checking
whether its items are non-empty, so every profile document whose highlighted
list is the empty sequence makes the call fail with a raw `IndexError` — not
a `ValidationError` — even when a valid description was already extracted. -/
theorem c10_index_error (stripHtml : String → String) (zodiac : ZodiacEnum)
    (data : ProfileDocument) (h : data.content.highlighted.list = []) :
    get_zodiac stripHtml zodiac data = .error .indexError := by
  unfold get_zodiac
  rw [h]

/-- C10 witness: the theorem at a concrete document that has a perfectly
valid description paragraph but an empty highlighted list. -/
theorem c10_witness :
    get_zodiac id ZodiacEnum.ARIES
      { content := { text := [{ type := "paragraph", content := "valid description" }],
                     highlighted := { list := [] }, summary := {} } } =
      .error .indexError :=
  c10_index_error id ZodiacEnum.ARIES _ rfl

/-- C5 counterexample: a profile document whose `content.text` is empty but
whose `content.highlighted.list` is also empty fails with a raw `IndexError`
(from `list[0]`), not with a `ValidationError` — so "for every raw profile
document whose content.text is empty, the call fails with a ValidationError"
does not hold. -/
theorem c5_counterexample :
    get_zodiac id ZodiacEnum.ARIES
      { content := { text := [], highlighted := { list := [] }, summary := {} } } =
      .error .indexError ∧
    get_zodiac id ZodiacEnum.ARIES
      { content := { text := [], highlighted := { list := [] }, summary := {} } } ≠
      .error .validationError := by
  refine ⟨rfl, ?_⟩
  intro h
  injection h with h'
  exact PyErr.noConfusion h'

/-- C5 amended: for every profile document whose `content.text` is the empty
sequence and whose `content.highlighted.list` is non-empty (so the raw
indexing at line 119 succeeds), `get_zodiac` fails with a `ValidationError`:
no description can be derived and `description` is a required field. -/
theorem c5_amended (stripHtml : String → String) (zodiac : ZodiacEnum)
    (data : ProfileDocument) (g : HighlightedGroup) (rest : List HighlightedGroup)
    (hl : data.content.highlighted.list = g :: rest)
    (ht : data.content.text = []) :
    get_zodiac stripHtml zodiac data = .error .validationError := by
  unfold get_zodiac
  rw [hl]
  show Zodiac.validate (build_zodiac_dict stripHtml zodiac data g) = .error .validationError
  rw [validate_error_iff]
  left
  rw [build_description, base_dict_description, ht]
  rfl

/-- C5 witness: the amended theorem at a concrete document with empty text
and one (empty) highlighted group. -/
theorem c5_witness :
    get_zodiac id ZodiacEnum.ARIES
      { content := { text := [], highlighted := { list := [{ items := [] }] },
                     summary := {} } } = .error .validationError :=
  c5_amended id ZodiacEnum.ARIES _ { items := [] } [] rfl rfl

/-- C3 counterexample: a profile document whose only paragraph block has
empty content.  After HTML stripping and trimming the description is the
empty string, yet `get_zodiac` returns a profile (with `description = ""`)
instead of failing — pydantic accepts the empty string for a required `str`
field, so "no profile with an empty required field is ever returned" is
false. -/
theorem c3_counterexample :
    get_zodiac id ZodiacEnum.ARIES
      { content :=
        { text := [{ type := "paragraph", content := "" }],
          highlighted := { list := [{ items :=
            [{ name := "Родились", text := "x" }, { name := "Стихия", text := "y" }] }] },
          summary := {} } } =
      .ok { zodiac := ZodiacEnum.ARIES, description := "", born := "x", element := "y" } := rfl

/-- C3 amended: when the raw indexing of the highlighted list succeeds,
`ZodiacProfile` construction in `get_zodiac` fails with a `ValidationError`
exactly when one of the required keys `description`, `born`, `element` was
never set in the keyword dict; a field that was set — even to the empty
string after normalization — is accepted. -/
theorem c3_amended (stripHtml : String → String) (zodiac : ZodiacEnum)
    (data : ProfileDocument) (g : HighlightedGroup) (rest : List HighlightedGroup)
    (hl : data.content.highlighted.list = g :: rest) :
    (get_zodiac stripHtml zodiac data = .error .validationError ↔
      ((build_zodiac_dict stripHtml zodiac data g).description = none ∨
       (build_zodiac_dict stripHtml zodiac data g).born = none ∨
       (build_zodiac_dict stripHtml zodiac data g).element = none)) := by
  unfold get_zodiac
  rw [hl]
  exact validate_error_iff _

/-- C3 witness: the amended theorem at a concrete document (empty text, one
empty highlighted group), where all three required keys are missing. -/
theorem c3_witness :
    (get_zodiac id ZodiacEnum.ARIES
      { content := { text := [], highlighted := { list := [{ items := [] }] },
                     summary := {} } } = .error .validationError ↔
      ((build_zodiac_dict id ZodiacEnum.ARIES
          { content := { text := [], highlighted := { list := [{ items := [] }] },
                         summary := {} } } { items := [] }).description = none ∨
       (build_zodiac_dict id ZodiacEnum.ARIES
          { content := { text := [], highlighted := { list := [{ items := [] }] },
                         summary := {} } } { items := [] }).born = none ∨
       (build_zodiac_dict id ZodiacEnum.ARIES
          { content := { text := [], highlighted := { list := [{ items := [] }] },
                         summary := {} } } { items := [] }).element = none)) :=
  c3_amended id ZodiacEnum.ARIES
    { content := { text := [], highlighted := { list := [{ items := [] }] },
                   summary := {} } } { items := [] } [] rfl

/-- C4 counterexample: the declaration order of `HoroscopePeriod` starts with
`yesterday`, not `today`, and a discovered `yesterday` therefore sorts before
the always-included `today`: on a listing whose single bubble link has
segment "yesterday" at index 2, `get_available_periods` for the GENERAL type
returns `[yesterday, today]` — `today` is not first. -/
theorem c4_counterexample :
    list_HoroscopePeriod =
      [HoroscopePeriod.YESTERDAY, HoroscopePeriod.TODAY, HoroscopePeriod.TOMORROW,
       HoroscopePeriod.WEEKLY, HoroscopePeriod.MONTHLY] ∧
    get_available_periods HoroscopeType.GENERAL
      { content := { bubbles := { list := [{ link := "/x/yesterday/a/" }] } } } =
      .ok [HoroscopePeriod.YESTERDAY, HoroscopePeriod.TODAY] :=
  ⟨rfl, rfl⟩

/-- C4 amended: `today` is always a member of any successful discovery
result, and the result is sorted by position in declaration order — but that
order is `[yesterday, today, tomorrow, weekly, monthly]`, so `today` (index 1)
precedes every period except `yesterday` (index 0). -/
theorem c4_amended (t : HoroscopeType) (data : PeriodsDocument)
    (out : List HoroscopePeriod) (h : get_available_periods t data = .ok out) :
    HoroscopePeriod.TODAY ∈ out ∧
    List.Pairwise (fun a b => HoroscopePeriod.index a ≤ HoroscopePeriod.index b) out ∧
    HoroscopePeriod.index HoroscopePeriod.YESTERDAY = 0 ∧
    HoroscopePeriod.index HoroscopePeriod.TODAY = 1 ∧
    (∀ p : HoroscopePeriod, p ≠ HoroscopePeriod.YESTERDAY →
      HoroscopePeriod.index HoroscopePeriod.TODAY ≤ HoroscopePeriod.index p) := by
  obtain ⟨res, hres, hout⟩ := get_available_periods_ok_elim t data out h
  subst hout
  refine ⟨?_, pairwise_sorted_by_key _ _, rfl, rfl, ?_⟩
  · rw [mem_sorted_by_key]
    exact periods_loop_mem t _ _ _ hres _ (List.mem_singleton_self _)
  · intro p hp
    cases p
    · exact absurd rfl hp
    all_goals decide

/-- C4 witness: the amended theorem at a listing with no bubbles, whose
result is `[today]`. -/
theorem c4_witness :
    HoroscopePeriod.TODAY ∈ [HoroscopePeriod.TODAY] ∧
    List.Pairwise (fun a b => HoroscopePeriod.index a ≤ HoroscopePeriod.index b)
      [HoroscopePeriod.TODAY] ∧
    HoroscopePeriod.index HoroscopePeriod.YESTERDAY = 0 ∧
    HoroscopePeriod.index HoroscopePeriod.TODAY = 1 ∧
    (∀ p : HoroscopePeriod, p ≠ HoroscopePeriod.YESTERDAY →
      HoroscopePeriod.index HoroscopePeriod.TODAY ≤ HoroscopePeriod.index p) :=
  c4_amended HoroscopeType.GENERAL { content := { bubbles := { list := [] } } }
    [HoroscopePeriod.TODAY] rfl

theorem build_summary_fields (stripHtml : String → String) (zodiac : ZodiacEnum)
    (data : ProfileDocument) (g : HighlightedGroup) (hi : g.items.length ≥ 1) :
    (build_zodiac_dict stripHtml zodiac data g).trait =
      opt_joined_lower data.content.summary.trait none ∧
    (build_zodiac_dict stripHtml zodiac data g).planet =
      opt_joined_lower data.content.summary.planet none ∧
    (build_zodiac_dict stripHtml zodiac data g).house =
      opt_joined_lower data.content.summary.house none ∧
    (build_zodiac_dict stripHtml zodiac data g).tarot =
      opt_joined_lower data.content.summary.tarot none ∧
    (build_zodiac_dict stripHtml zodiac data g).color =
      opt_joined_lower data.content.summary.color none ∧
    (build_zodiac_dict stripHtml zodiac data g).stone =
      opt_joined_lower data.content.summary.stone none ∧
    (build_zodiac_dict stripHtml zodiac data g).flower =
      opt_joined data.content.summary.flower none := by
  refine ⟨?_, ?_, ?_, ?_, ?_, ?_, ?_⟩ <;> simp only [build_zodiac_dict] <;> rw [if_pos hi]
  · rw [process_summary_trait, (process_items_fields g.items _).2.1]
    rfl
  · rw [process_summary_planet, (process_items_fields g.items _).2.2.1]
    rfl
  · rw [process_summary_house, (process_items_fields g.items _).2.2.2.1]
    rfl
  · rw [process_summary_tarot, (process_items_fields g.items _).2.2.2.2.1]
    rfl
  · rw [process_summary_color, (process_items_fields g.items _).2.2.2.2.2.1]
    rfl
  · rw [process_summary_stone, (process_items_fields g.items _).2.2.2.2.2.2.1]
    rfl
  · rw [process_summary_flower, (process_items_fields g.items _).2.2.2.2.2.2.2.1]
    rfl

/-- C6: compatibility handling of `get_zodiac`.  Whenever the call succeeds
and `content.summary.compatibility` contains an element `Zodiac.from_name`
cannot resolve, the entire list is silently dropped — the profile's
`compatibility` is the empty list and no error is propagated.  When the
highlighted-items branch is taken and every element resolves, the fully
mapped list is kept in order. -/
theorem c6_compatibility (stripHtml : String → String) (zodiac : ZodiacEnum)
    (data : ProfileDocument) (r : Zodiac) (names : List String)
    (hnames : data.content.summary.compatibility = some names)
    (hok : get_zodiac stripHtml zodiac data = .ok r) :
    ((∃ n ∈ names, ZodiacEnum.from_name n = none) → r.compatibility = []) ∧
    (∀ g rest sgns, data.content.highlighted.list = g :: rest → g.items ≠ [] →
      map_from_name names = some sgns → r.compatibility = sgns) := by
  unfold get_zodiac at hok
  cases hl : data.content.highlighted.list with
  | nil =>
    rw [hl] at hok
    exact Except.noConfusion hok
  | cons g0 rest0 =>
    rw [hl] at hok
    have hok' : Zodiac.validate (build_zodiac_dict stripHtml zodiac data g0) = .ok r := hok
    have hcompat := (validate_ok_elim _ _ hok').2.2.2.2.2.2.2
    rw [build_compatibility, hnames] at hcompat
    constructor
    · intro hbad
      have hm := map_from_name_none names hbad
      rw [hcompat]
      by_cases hi : g0.items.length ≥ 1
      · rw [if_pos hi]
        simp [opt_compat, hm]
      · rw [if_neg hi]
        rfl
    · intro g rest sgns hl2 hne hmap
      injection hl2 with hg hrest
      subst hg
      have hi : g0.items.length ≥ 1 := List.length_pos.mpr hne
      rw [hcompat, if_pos hi]
      simp [opt_compat, hmap]

/-- C6 witness: the drop branch of the theorem at a concrete document whose
compatibility list is `["Телец", "???"]` — the second element does not
resolve, so the returned profile's compatibility list is empty. -/
theorem c6_witness :
    ({ zodiac := ZodiacEnum.ARIES, description := "d", born := "b",
       element := "e" } : Zodiac).compatibility = [] :=
  (c6_compatibility id ZodiacEnum.ARIES
    { content :=
      { text := [{ type := "paragraph", content := "d" }],
        highlighted := { list := [{ items :=
          [{ name := "Родились", text := "b" }, { name := "Стихия", text := "e" }] }] },
        summary := { compatibility := some ["Телец", "???"] } } }
    { zodiac := ZodiacEnum.ARIES, description := "d", born := "b", element := "e" }
    ["Телец", "???"] rfl rfl).1
    ⟨"???", List.mem_cons_of_mem _ (List.mem_singleton_self _), rfl⟩

/-- C7: for a profile document whose highlighted-items branch is taken, each
present summary attribute among trait, planet, house, tarot, color, stone is
joined with ", " and lowercased in the returned profile, while flower is
joined with ", " with its case preserved. -/
theorem c7_summary (stripHtml : String → String) (zodiac : ZodiacEnum)
    (data : ProfileDocument) (r : Zodiac)
    (g : HighlightedGroup) (rest : List HighlightedGroup)
    (hl : data.content.highlighted.list = g :: rest)
    (hitems : g.items ≠ [])
    (hok : get_zodiac stripHtml zodiac data = .ok r) :
    (∀ v, data.content.summary.trait = some v →
      r.trait = some (str_lower (String.intercalate ", " v))) ∧
    (∀ v, data.content.summary.planet = some v →
      r.planet = some (str_lower (String.intercalate ", " v))) ∧
    (∀ v, data.content.summary.house = some v →
      r.house = some (str_lower (String.intercalate ", " v))) ∧
    (∀ v, data.content.summary.tarot = some v →
      r.tarot = some (str_lower (String.intercalate ", " v))) ∧
    (∀ v, data.content.summary.color = some v →
      r.color = some (str_lower (String.intercalate ", " v))) ∧
    (∀ v, data.content.summary.stone = some v →
      r.stone = some (str_lower (String.intercalate ", " v))) ∧
    (∀ v, data.content.summary.flower = some v →
      r.flower = some (String.intercalate ", " v)) := by
  unfold get_zodiac at hok
  rw [hl] at hok
  have hok' : Zodiac.validate (build_zodiac_dict stripHtml zodiac data g) = .ok r := hok
  obtain ⟨htr, hpl, hho, hta, hco, hst, hfl, _⟩ := validate_ok_elim _ _ hok'
  have hi : g.items.length ≥ 1 := List.length_pos.mpr hitems
  obtain ⟨btr, bpl, bho, bta, bco, bst, bfl⟩ :=
    build_summary_fields stripHtml zodiac data g hi
  refine ⟨?_, ?_, ?_, ?_, ?_, ?_, ?_⟩ <;> intro v hv
  · rw [htr, btr, hv]
    rfl
  · rw [hpl, bpl, hv]
    rfl
  · rw [hho, bho, hv]
    rfl
  · rw [hta, bta, hv]
    rfl
  · rw [hco, bco, hv]
    rfl
  · rw [hst, bst, hv]
    rfl
  · rw [hfl, bfl, hv]
    rfl

/-- C7 witness: the color and flower branches of the theorem at a concrete
document with `color = ["Red", "Blue"]` and `flower = ["Rose", "Lily"]`. -/
theorem c7_witness :
    ({ zodiac := ZodiacEnum.ARIES, description := "d", born := "b", element := "e",
       color := some "red, blue", flower := some "Rose, Lily" } : Zodiac).color =
      some "red, blue" ∧
    ({ zodiac := ZodiacEnum.ARIES, description := "d", born := "b", element := "e",
       color := some "red, blue", flower := some "Rose, Lily" } : Zodiac).flower =
      some "Rose, Lily" := by
  have h := c7_summary id ZodiacEnum.ARIES
    { content :=
      { text := [{ type := "paragraph", content := "d" }],
        highlighted := { list := [{ items :=
          [{ name := "Родились", text := "b" }, { name := "Стихия", text := "e" }] }] },
        summary := { color := some ["Red", "Blue"], flower := some ["Rose", "Lily"] } } }
    { zodiac := ZodiacEnum.ARIES, description := "d", born := "b", element := "e",
      color := some "red, blue", flower := some "Rose, Lily" }
    { items := [{ name := "Родились", text := "b" }, { name := "Стихия", text := "e" }] }
    [] rfl (List.cons_ne_nil _ _) rfl
  exact ⟨h.2.2.2.2.1 ["Red", "Blue"] rfl, h.2.2.2.2.2.2 ["Rose", "Lily"] rfl⟩

theorem types_loop_cons_seg (s : Story) (rest : List Story)
    (out : List HoroscopeType) (seg : String)
    (h : (py_split_slash s.link).get? 2 = some seg) :
    types_loop (s :: rest) out = types_loop rest (types_step seg out) := by
  rw [types_loop_cons, h]

theorem periods_loop_cons_seg (t : HoroscopeType) (b : Bubble) (rest : List Bubble)
    (out : List HoroscopePeriod) (seg : String)
    (h : (py_split_slash b.link).get?
      (if t ≠ HoroscopeType.GENERAL then 3 else 2) = some seg) :
    periods_loop t (b :: rest) out = periods_loop t rest (periods_step seg out) := by
  rw [periods_loop_cons, h]

/-- C8: type discovery.  On a listing whose stories have path segment
(index 2) "erotic" and "career" respectively, `get_available_types` returns
exactly `[general, love, career]`: `general` is unconditionally included
first, "erotic" is aliased to `love`, "career" matches a literal slug, and
the result is sorted by position in `HoroscopeType` declaration order.  A
listing with zero stories yields `[general]`, and in every successful result
`general` is a member and the list is sorted by declaration order. -/
theorem c8_types :
    (∀ (data : TypesDocument) (a b : Story),
      (data.cards.flatMap fun c => c.stories) = [a, b] →
      (py_split_slash a.link).get? 2 = some "erotic" →
      (py_split_slash b.link).get? 2 = some "career" →
      get_available_types data =
        .ok [HoroscopeType.GENERAL, HoroscopeType.LOVE, HoroscopeType.CAREER]) ∧
    (∀ data : TypesDocument, (data.cards.flatMap fun c => c.stories) = [] →
      get_available_types data = .ok [HoroscopeType.GENERAL]) ∧
    (∀ (data : TypesDocument) (out : List HoroscopeType),
      get_available_types data = .ok out →
      HoroscopeType.GENERAL ∈ out ∧
      List.Pairwise (fun x y => HoroscopeType.index x ≤ HoroscopeType.index y) out) := by
  refine ⟨?_, ?_, ?_⟩
  · intro data a b hst ha hb
    unfold get_available_types
    rw [hst, types_loop_cons_seg a [b] [HoroscopeType.GENERAL] "erotic" ha]
    have h1 : types_step "erotic" [HoroscopeType.GENERAL] =
      [HoroscopeType.GENERAL, HoroscopeType.LOVE] := rfl
    rw [h1, types_loop_cons_seg b []
      [HoroscopeType.GENERAL, HoroscopeType.LOVE] "career" hb]
    rfl
  · intro data hst
    unfold get_available_types
    rw [hst]
    rfl
  · intro data out h
    obtain ⟨res, hres, hout⟩ := get_available_types_ok_elim data out h
    subst hout
    refine ⟨?_, pairwise_sorted_by_key _ _⟩
    rw [mem_sorted_by_key]
    exact types_loop_mem _ _ _ hres _ (List.mem_singleton_self _)

/-- C8 witness: the first branch of the theorem at a concrete listing with
one card containing an "erotic" story and a "career" story, and the second
branch at a listing with no cards. -/
theorem c8_witness :
    get_available_types
      { cards := [{ stories := [{ link := "/h/erotic/a/" }, { link := "/h/career/a/" }] }] } =
      .ok [HoroscopeType.GENERAL, HoroscopeType.LOVE, HoroscopeType.CAREER] ∧
    get_available_types { cards := [] } = .ok [HoroscopeType.GENERAL] :=
  ⟨c8_types.1 { cards := [{ stories := [{ link := "/h/erotic/a/" }, { link := "/h/career/a/" }] }] }
      { link := "/h/erotic/a/" } { link := "/h/career/a/" } rfl rfl rfl,
   c8_types.2.1 { cards := [] } rfl⟩

/-- C9: period discovery.  The inspected path segment has index 3 when the
requested type is not GENERAL and index 2 when it is GENERAL; a segment
matching a known period slug is included; `today` is always included; and
with the GENERAL type and a single bubble whose index-2 segment is "weekly"
(resp. a non-GENERAL type and index-3 segment "weekly") the result is
`[today, weekly]` in declaration order. -/
theorem c9_periods :
    (∀ (data : PeriodsDocument) (b : Bubble),
      data.content.bubbles.list = [b] →
      (py_split_slash b.link).get? 2 = some "weekly" →
      get_available_periods HoroscopeType.GENERAL data =
        .ok [HoroscopePeriod.TODAY, HoroscopePeriod.WEEKLY]) ∧
    (∀ (data : PeriodsDocument) (b : Bubble) (t : HoroscopeType),
      t ≠ HoroscopeType.GENERAL →
      data.content.bubbles.list = [b] →
      (py_split_slash b.link).get? 3 = some "weekly" →
      get_available_periods t data =
        .ok [HoroscopePeriod.TODAY, HoroscopePeriod.WEEKLY]) ∧
    (∀ (t : HoroscopeType) (data : PeriodsDocument) (out : List HoroscopePeriod),
      get_available_periods t data = .ok out → HoroscopePeriod.TODAY ∈ out) := by
  refine ⟨?_, ?_, ?_⟩
  · intro data b hlist hseg
    unfold get_available_periods
    rw [hlist]
    have hseg' : (py_split_slash b.link).get?
        (if HoroscopeType.GENERAL ≠ HoroscopeType.GENERAL then 3 else 2) = some "weekly" := by
      rw [if_neg (by simp)]
      exact hseg
    rw [periods_loop_cons_seg HoroscopeType.GENERAL b [] [HoroscopePeriod.TODAY] "weekly" hseg']
    rfl
  · intro data b t ht hlist hseg
    unfold get_available_periods
    rw [hlist]
    have hseg' : (py_split_slash b.link).get?
        (if t ≠ HoroscopeType.GENERAL then 3 else 2) = some "weekly" := by
      rw [if_pos ht]
      exact hseg
    rw [periods_loop_cons_seg t b [] [HoroscopePeriod.TODAY] "weekly" hseg']
    rfl
  · intro t data out h
    obtain ⟨res, hres, hout⟩ := get_available_periods_ok_elim t data out h
    subst hout
    rw [mem_sorted_by_key]
    exact periods_loop_mem t _ _ _ hres _ (List.mem_singleton_self _)

/-- C9 witness: the first branch of the theorem at a concrete GENERAL-type
listing with one "weekly" bubble, and the second at a LOVE-type listing. -/
theorem c9_witness :
    get_available_periods HoroscopeType.GENERAL
      { content := { bubbles := { list := [{ link := "/h/weekly/a/" }] } } } =
      .ok [HoroscopePeriod.TODAY, HoroscopePeriod.WEEKLY] ∧
    get_available_periods HoroscopeType.LOVE
      { content := { bubbles := { list := [{ link := "/love/aries/weekly/" }] } } } =
      .ok [HoroscopePeriod.TODAY, HoroscopePeriod.WEEKLY] :=
  ⟨c9_periods.1 { content := { bubbles := { list := [{ link := "/h/weekly/a/" }] } } }
      { link := "/h/weekly/a/" } rfl rfl,
   c9_periods.2.1 { content := { bubbles := { list := [{ link := "/love/aries/weekly/" }] } } }
      { link := "/love/aries/weekly/" } HoroscopeType.LOVE (by simp) rfl rfl⟩
